import Mathlib

/-!
Verification development for the kite-agent repository.

The repository is an agent process that bridges a WebSocket host connection
(src/agent.rs) to the external second-course web service sc.sit.edu.cn
(src/service/sc.rs).  Network effects are embedded shallowly: every HTTP
interaction goes through an explicit environment `Env` of oracle functions,
and every operation returns, besides its result, the list of network events
(fetches and logins) it performed, in order.  Machine integers are modelled
as `Int`/`Nat` with explicit reduction modulo 2^64 where Rust casts occur.
-/

namespace KiteAgent

/-- Errors of the crate-level `Result` type, as used by src/service/sc.rs
(`ActionError::BadParameter`, `ActionError::NoSessionAvailable`, login and
network failures) and by the agent callback. -/
inductive AgentError where
  | badParameter
  | noSessionAvailable
  | loginFailed
  | network (msg : String)
  | parseFailed
  deriving DecidableEq, Repr

/-- An HTTP response as observed by src/service/sc.rs: its final URL after
redirects (`response.url()`), its status code (`response.status()`), its
body as text (`response.text()`) and as bytes (`response.bytes()`). -/
structure Response where
  finalUrl : String
  status : Nat
  body : String
  bytes : List Nat
  deriving DecidableEq, Repr

/-- The `StatusCode::OK`. -/
def statusOK : Nat := 200

/-- The state of a `UserClient` (src/net, not under src/): the session it
carries, rotated by `send`, and whether a response hook is installed
(`set_response_hook`).  Sessions are abstract tokens (`Nat`). -/
structure Client where
  session : Nat
  hook : Bool
  deriving DecidableEq, Repr

/-- One observable network event of the service pipeline. -/
inductive Event where
  | fetch (url : String)
  | login
  deriving DecidableEq, Repr

/-- The environment of external collaborators: the HTTP transport
(`client.send`), the login collaborator (`client.login_with_session`), the
session store (`choose_randomly`, `query_or`, `insert`), body extraction
(`response.text()` / `response.bytes()`, fallible) and the parsing
collaborators (crate::parser, not under src/).  Parsed records are kept
abstract where the claims do not inspect them. -/
structure Env where
  send : Client → String → Except AgentError (Response × Client)
  loginWithSession : Client → Except AgentError Client
  chooseRandomly : Except AgentError (Option Nat)
  queryOr : String → String → Except AgentError Nat
  insertSession : Nat → Except AgentError Unit
  readText : Response → Except AgentError String
  readBytes : Response → Except AgentError (List Nat)

namespace url

/-- The `url::SSO_SC_REDIRECT` in src/service/sc.rs. -/
def SSO_SC_REDIRECT : String :=
  "https://authserver.sit.edu.cn/authserver/login?service=http%3A%2F%2Fsc.sit.edu.cn%2F"

/-- The `url::MY_SCORE` in src/service/sc.rs. -/
def MY_SCORE : String := "http://sc.sit.edu.cn/public/pcenter/scoreDetail.action"

/-- The `url::MY_ACTIVITY` in src/service/sc.rs. -/
def MY_ACTIVITY : String :=
  "http://sc.sit.edu.cn/public/pcenter/activityOrderList.action?pageSize=200"

end url

/-- The `CATEGORY_MAPPING` in src/service/sc.rs: the 12-entry table from
category index to the category key of sc.sit.edu.cn. -/
def CATEGORY_MAPPING : List String := [
  "",
  "001",
  "8ab17f543fe62d5d013fe62efd3a0002",
  "ff8080814e241104014eb867e1481dc3",
  "8F963F2A04013A66E0540021287E4866",
  "8ab17f543fe62d5d013fe62e6dc70001",
  "8ab17f2a3fe6585e013fe6596c300001",
  "ff808081674ec4720167ce60dda77cea",
  "8ab17f543fe626a8013fe6278a880001",
  "402881de5d62ba57015d6320f1a7000c",
  "8ab17f533ff05c27013ff06d10bf0001",
  "ff8080814e241104014fedbbf7fd329d"]

/-- The Rust cast `category as usize` applied to an `i32` value on a 64-bit
target: sign extension followed by reinterpretation, i.e. reduction modulo
2^64.  `Int.emod` with a positive modulus lands in `[0, 2^64)`. -/
def usizeOfI32 (category : Int) : Nat :=
  (category % (2 ^ 64 : Int)).toNat

/-- The `tran_category` in src/service/sc.rs: guarded slice lookup
`CATEGORY_MAPPING.get(category as usize)`, `BadParameter` when out of
bounds. -/
def tran_category (category : Int) : Except AgentError String :=
  match CATEGORY_MAPPING[usizeOfI32 category]? with
  | some categoryKey => Except.ok categoryKey
  | none => Except.error AgentError.badParameter

/-- The `make_sure_active` in src/service/sc.rs: fetch the landing URL
`SSO_SC_REDIRECT`; when the final URL still equals the login-redirect URL the
session is expired, so log in and fetch the landing URL once more; otherwise
return at once. -/
def make_sure_active (env : Env) (client : Client) :
    Except AgentError Unit × Client × List Event :=
  match env.send client url.SSO_SC_REDIRECT with
  | Except.error e => (Except.error e, client, [Event.fetch url.SSO_SC_REDIRECT])
  | Except.ok (response, c1) =>
    if response.finalUrl = url.SSO_SC_REDIRECT then
      match env.loginWithSession c1 with
      | Except.error e =>
          (Except.error e, c1, [Event.fetch url.SSO_SC_REDIRECT, Event.login])
      | Except.ok c2 =>
        match env.send c2 url.SSO_SC_REDIRECT with
        | Except.error e =>
            (Except.error e, c2,
              [Event.fetch url.SSO_SC_REDIRECT, Event.login,
                Event.fetch url.SSO_SC_REDIRECT])
        | Except.ok (_, c3) =>
            (Except.ok (), c3,
              [Event.fetch url.SSO_SC_REDIRECT, Event.login,
                Event.fetch url.SSO_SC_REDIRECT])
    else (Except.ok (), c1, [Event.fetch url.SSO_SC_REDIRECT])

/-- The `fetch_or_make_sure_active` in src/service/sc.rs: fetch the target URL
first; on status OK hand the response back, otherwise run the eager guard
once and return `none` so the caller retries. -/
def fetch_or_make_sure_active (env : Env) (client : Client) (u : String) :
    Except AgentError (Option Response) × Client × List Event :=
  match env.send client u with
  | Except.error e => (Except.error e, client, [Event.fetch u])
  | Except.ok (response, c1) =>
    if response.status = statusOK then
      (Except.ok (some response), c1, [Event.fetch u])
    else
      match make_sure_active env c1 with
      | (Except.error e, c2, tr) => (Except.error e, c2, Event.fetch u :: tr)
      | (Except.ok _, c2, tr) => (Except.ok none, c2, Event.fetch u :: tr)

/-- The `s` contains `pat` as a substring (Rust `str::contains`). -/
def containsSubstr (s pat : String) : Bool :=
  (List.range (s.length + 1)).any fun i => pat.isPrefixOf ⟨s.data.drop i⟩

/-- The `match_image_url` in src/service/sc.rs: keep an absolute URL that already
names one of the two known hosts, otherwise prefix the sc host. -/
def match_image_url (old_name : String) : String :=
  if containsSubstr old_name "sc.sit.edu.cn" || containsSubstr old_name "job.sit.edu.cn" then
    old_name
  else
    "http://sc.sit.edu.cn" ++ old_name

/-- Modelled from the spec: the parser record `ScImages` (crate::parser, not
under src/), with exactly the fields src/service/sc.rs reads and writes: the
original name used to derive the URL and the inline binary content. -/
structure ScImages where
  old_name : String
  content : List Nat
  deriving DecidableEq, Repr

/-- Modelled from the spec: the parser record `ActivityDetail`
(crate::parser, not under src/).  Its image list is the only field the
pipeline in src/service/sc.rs touches; the rest is abstract. -/
structure ActivityDetail where
  images : List ScImages
  rest : Nat
  deriving DecidableEq, Repr

/-- Modelled from the spec: the parser record `Activity` (crate::parser, not
under src/).  `ActivityListRequest::process` overwrites its `category`
field; the rest is abstract. -/
structure Activity where
  category : Int
  rest : Nat
  deriving DecidableEq, Repr

/-- The `download_image` in src/service/sc.rs: install the default response hook,
fetch the image URL and return the response bytes. -/
def download_image (env : Env) (image_url : String) (client : Client) :
    Except AgentError (List Nat) × Client × List Event :=
  let c0 : Client := { client with hook := true }
  match env.send c0 image_url with
  | Except.error e => (Except.error e, c0, [Event.fetch image_url])
  | Except.ok (response, c1) =>
    match env.readBytes response with
    | Except.error e => (Except.error e, c1, [Event.fetch image_url])
    | Except.ok bs => (Except.ok bs, c1, [Event.fetch image_url])

/-- The `fetch_image` in src/service/sc.rs: walk the image list; for an image
with empty content download it and fill the content in, logging (and
otherwise ignoring) a per-image failure; leave images with content alone.
Always returns `Ok(())`. -/
def fetch_image (env : Env) : List ScImages → Client →
    Except AgentError Unit × List ScImages × Client × List Event
  | [], client => (Except.ok (), [], client, [])
  | image :: rest, client =>
    if image.content.isEmpty then
      let image_url := match_image_url image.old_name
      match download_image env image_url client with
      | (Except.ok result, c1, tr) =>
        let next := fetch_image env rest c1
        (next.1, { image with content := result } :: next.2.1, next.2.2.1, tr ++ next.2.2.2)
      | (Except.error _, c1, tr) =>
        let next := fetch_image env rest c1
        (next.1, image :: next.2.1, next.2.2.1, tr ++ next.2.2.2)
    else
      let next := fetch_image env rest client
      (next.1, image :: next.2.1, next.2.2.1, next.2.2.2)

/-- The tagged response union `ResponsePayload` of crate::service, restricted
to the variants produced in src/service/sc.rs.  Personal score and activity
records are parser output (not under src/) and stay abstract. -/
inductive ResponsePayload where
  | ActivityList (activities : List Activity)
  | ActivityDetail (detail : KiteAgent.ActivityDetail)
  | ScMyScore (score : List Nat)
  | ScMyActivity (activity : List Nat)
  deriving DecidableEq, Repr

/-- The parsing collaborators invoked once per fetched page (crate::parser,
not under src/), kept as oracles. -/
structure Parsers where
  activityList : String → Except AgentError (List Activity)
  activityDetail : String → Except AgentError ActivityDetail
  myScoreList : String → Except AgentError (List Nat)
  myActivityList : String → Except AgentError (List Nat)

/-- The `ActivityListRequest` in src/service/sc.rs (`count`, `index` are u16,
`category` is i32). -/
structure ActivityListRequest where
  count : Nat
  index : Nat
  category : Int
  deriving DecidableEq, Repr

/-- Modelled from the spec: the query string produced by the
`make_parameter!` macro call site in `ActivityListRequest::process`
(the macro itself is not under src/): the three pairs in call order. -/
def activityListUrl (index count : Nat) (categoryId : String) : String :=
  "http://sc.sit.edu.cn/public/activity/activityList.action?" ++
    "pageNo=" ++ toString index ++ "&pageSize=" ++ toString count ++
    "&categoryId=" ++ categoryId

/-- The `ActivityListRequest::process` in src/service/sc.rs: draw a random
session (`NoSessionAvailable` on an empty pool), run the eager guard,
translate the category, fetch the list page, persist the session, parse, and
stamp the request category onto every parsed activity. -/
def ActivityListRequest.process (env : Env) (p : Parsers)
    (self : ActivityListRequest) : Except AgentError ResponsePayload × List Event :=
  match env.chooseRandomly with
  | Except.error e => (Except.error e, [])
  | Except.ok none => (Except.error AgentError.noSessionAvailable, [])
  | Except.ok (some session) =>
    let client : Client := { session := session, hook := true }
    match make_sure_active env client with
    | (Except.error e, _, tr) => (Except.error e, tr)
    | (Except.ok _, c1, tr) =>
      match tran_category self.category with
      | Except.error e => (Except.error e, tr)
      | Except.ok category_id =>
        let u := activityListUrl self.index self.count category_id
        match env.send c1 u with
        | Except.error e => (Except.error e, tr ++ [Event.fetch u])
        | Except.ok (response, c2) =>
          match env.insertSession c2.session with
          | Except.error e => (Except.error e, tr ++ [Event.fetch u])
          | Except.ok _ =>
            match env.readText response with
            | Except.error e => (Except.error e, tr ++ [Event.fetch u])
            | Except.ok html =>
              match p.activityList html with
              | Except.error e => (Except.error e, tr ++ [Event.fetch u])
              | Except.ok activities =>
                (Except.ok (ResponsePayload.ActivityList
                    (activities.map fun s => { s with category := self.category })),
                  tr ++ [Event.fetch u])

/-- The `ActivityDetailRequest` in src/service/sc.rs (`id` is i32). -/
structure ActivityDetailRequest where
  id : Int
  deriving DecidableEq, Repr

/-- The detail page URL built in `ActivityDetailRequest::process`. -/
def activityDetailUrl (id : Int) : String :=
  "http://sc.sit.edu.cn/public/activity/activityDetail.action?activityId=" ++ toString id

/-- The `ActivityDetailRequest::process` in src/service/sc.rs: draw a random
session, run the lazy guard against the detail URL; when it yields no
response, install the hook and fetch the URL again; then read the page,
persist the session, parse the detail and resolve its images. -/
def ActivityDetailRequest.process (env : Env) (p : Parsers)
    (self : ActivityDetailRequest) : Except AgentError ResponsePayload × List Event :=
  match env.chooseRandomly with
  | Except.error e => (Except.error e, [])
  | Except.ok none => (Except.error AgentError.noSessionAvailable, [])
  | Except.ok (some session) =>
    let client : Client := { session := session, hook := false }
    let u := activityDetailUrl self.id
    match fetch_or_make_sure_active env client u with
    | (Except.error e, _, tr) => (Except.error e, tr)
    | (Except.ok firstTry, c1, tr) =>
      let retried : Except AgentError (Response × Client) × List Event :=
        match firstTry with
        | some response => (Except.ok (response, c1), tr)
        | none =>
          let c2 : Client := { c1 with hook := true }
          match env.send c2 u with
          | Except.error e => (Except.error e, tr ++ [Event.fetch u])
          | Except.ok (response, c3) => (Except.ok (response, c3), tr ++ [Event.fetch u])
      match retried with
      | (Except.error e, tr1) => (Except.error e, tr1)
      | (Except.ok (response, c4), tr1) =>
        match env.readText response with
        | Except.error e => (Except.error e, tr1)
        | Except.ok html =>
          match env.insertSession c4.session with
          | Except.error e => (Except.error e, tr1)
          | Except.ok _ =>
            match p.activityDetail html with
            | Except.error e => (Except.error e, tr1)
            | Except.ok activity =>
              let fi := fetch_image env activity.images c4
              match fi.1 with
              | Except.error e => (Except.error e, tr1 ++ fi.2.2.2)
              | Except.ok _ =>
                (Except.ok (ResponsePayload.ActivityDetail
                    { activity with images := fi.2.1 }),
                  tr1 ++ fi.2.2.2)

/-- The `ScScoreItemRequest` in src/service/sc.rs. -/
structure ScScoreItemRequest where
  account : String
  password : String
  deriving DecidableEq, Repr

/-- The `ScScoreItemRequest::process` in src/service/sc.rs. -/
def ScScoreItemRequest.process (env : Env) (p : Parsers)
    (self : ScScoreItemRequest) : Except AgentError ResponsePayload × List Event :=
  match env.queryOr self.account self.password with
  | Except.error e => (Except.error e, [])
  | Except.ok session =>
    let client : Client := { session := session, hook := true }
    match make_sure_active env client with
    | (Except.error e, _, tr) => (Except.error e, tr)
    | (Except.ok _, c1, tr) =>
      match env.send c1 url.MY_SCORE with
      | Except.error e => (Except.error e, tr ++ [Event.fetch url.MY_SCORE])
      | Except.ok (response, c2) =>
        match env.readText response with
        | Except.error e => (Except.error e, tr ++ [Event.fetch url.MY_SCORE])
        | Except.ok html =>
          match env.insertSession c2.session with
          | Except.error e => (Except.error e, tr ++ [Event.fetch url.MY_SCORE])
          | Except.ok _ =>
            match p.myScoreList html with
            | Except.error e => (Except.error e, tr ++ [Event.fetch url.MY_SCORE])
            | Except.ok score =>
              (Except.ok (ResponsePayload.ScMyScore score),
                tr ++ [Event.fetch url.MY_SCORE])

/-- The `ScActivityRequest` in src/service/sc.rs. -/
structure ScActivityRequest where
  account : String
  password : String
  deriving DecidableEq, Repr

/-- The `ScActivityRequest::process` in src/service/sc.rs: get-or-create the
session for the account, run the eager guard, fetch the personal activity
order list, persist the session and parse it. -/
def ScActivityRequest.process (env : Env) (p : Parsers)
    (self : ScActivityRequest) : Except AgentError ResponsePayload × List Event :=
  match env.queryOr self.account self.password with
  | Except.error e => (Except.error e, [])
  | Except.ok session =>
    let client : Client := { session := session, hook := true }
    match make_sure_active env client with
    | (Except.error e, _, tr) => (Except.error e, tr)
    | (Except.ok _, c1, tr) =>
      match env.send c1 url.MY_ACTIVITY with
      | Except.error e => (Except.error e, tr ++ [Event.fetch url.MY_ACTIVITY])
      | Except.ok (response, c2) =>
        match env.readText response with
        | Except.error e => (Except.error e, tr ++ [Event.fetch url.MY_ACTIVITY])
        | Except.ok html =>
          match env.insertSession c2.session with
          | Except.error e => (Except.error e, tr ++ [Event.fetch url.MY_ACTIVITY])
          | Except.ok _ =>
            match p.myActivityList html with
            | Except.error e => (Except.error e, tr ++ [Event.fetch url.MY_ACTIVITY])
            | Except.ok activity =>
              (Except.ok (ResponsePayload.ScMyActivity activity),
                tr ++ [Event.fetch url.MY_ACTIVITY])

/-- The `ScJoinRequest` in src/service/sc.rs (`activity_id` is i32). -/
structure ScJoinRequest where
  account : String
  password : String
  activity_id : Int
  force : Bool
  deriving DecidableEq, Repr

/-- The `ScJoinRequest::process` in src/service/sc.rs: despite its name it
repeats the body of `ScActivityRequest::process` verbatim (the expected
join-confirmation page content is bound to an unused local), fetching the
personal activity order list and returning `ScMyActivity`. -/
def ScJoinRequest.process (env : Env) (p : Parsers)
    (self : ScJoinRequest) : Except AgentError ResponsePayload × List Event :=
  match env.queryOr self.account self.password with
  | Except.error e => (Except.error e, [])
  | Except.ok session =>
    let client : Client := { session := session, hook := true }
    match make_sure_active env client with
    | (Except.error e, _, tr) => (Except.error e, tr)
    | (Except.ok _, c1, tr) =>
      match env.send c1 url.MY_ACTIVITY with
      | Except.error e => (Except.error e, tr ++ [Event.fetch url.MY_ACTIVITY])
      | Except.ok (response, c2) =>
        match env.readText response with
        | Except.error e => (Except.error e, tr ++ [Event.fetch url.MY_ACTIVITY])
        | Except.ok html =>
          match env.insertSession c2.session with
          | Except.error e => (Except.error e, tr ++ [Event.fetch url.MY_ACTIVITY])
          | Except.ok _ =>
            match p.myActivityList html with
            | Except.error e => (Except.error e, tr ++ [Event.fetch url.MY_ACTIVITY])
            | Except.ok activity =>
              (Except.ok (ResponsePayload.ScMyActivity activity),
                tr ++ [Event.fetch url.MY_ACTIVITY])

/-- An inbound WebSocket message as matched in `Agent::process_message`
(src/agent.rs): binary payload, ping, pong, or anything else (close or an
unexpected text frame). -/
inductive Msg where
  | binary (content : List Nat)
  | ping (payload : List Nat)
  | pong (payload : List Nat)
  | close
  | text (s : String)
  deriving DecidableEq, Repr

/-- An outbound frame enqueued on the bounded channel to the sender loop. -/
inductive OutFrame where
  | binary (content : List Nat)
  | close
  deriving DecidableEq, Repr

/-- The codec and callback seam of the transport bridge (src/agent.rs):
`bincode::deserialize` of the payload, the registered callback with its
cloneable shared parameter, and `bincode::serialize` of the response.
`Req`, `Resp` and `D` are the crate request, response and shared-data types,
kept generic exactly as in `Agent<D>`. -/
structure Bridge (Req Resp D : Type) where
  deserialize : List Nat → Except String Req
  serialize : Resp → Except String (List Nat)
  callback : Req → D → Except AgentError Resp
  parameter : D

/-- The `Agent::dispatch_message` in src/agent.rs: deserialize the payload; on
success run the callback; only when the callback succeeds and the response
serializes is one binary frame enqueued.  Decode failures, callback errors
and serialize failures all enqueue nothing (the TODO comments in the source
mark the missing error frames).  The return value is the list of frames the
task sends on `socket_tx`. -/
def dispatch_message {Req Resp D : Type} (b : Bridge Req Resp D)
    (content : List Nat) : List OutFrame :=
  match b.deserialize content with
  | Except.error _ => []
  | Except.ok req =>
    match b.callback req b.parameter with
    | Except.error _ => []
    | Except.ok response =>
      match b.serialize response with
      | Except.error _ => []
      | Except.ok response_content => [OutFrame.binary response_content]

/-- The `Agent::process_message` in src/agent.rs: binary frames are dispatched
(the frames of the spawned task are collected here), ping and pong need no
action, anything else enqueues a close frame. -/
def process_message {Req Resp D : Type} (b : Bridge Req Resp D)
    (message : Msg) : List OutFrame :=
  match message with
  | Msg.binary content => dispatch_message b content
  | Msg.ping _ => []
  | Msg.pong _ => []
  | _ => [OutFrame.close]

/-- The `Agent::receiver_loop` in src/agent.rs, sequentialized: consume inbound
stream items in arrival order, ignore transport read errors, and process
each message.  The result is the concatenation of all enqueued outbound
frames. -/
def receiver_loop {Req Resp D : Type} (b : Bridge Req Resp D) :
    List (Except String Msg) → List OutFrame
  | [] => []
  | Except.error _ :: rest => receiver_loop b rest
  | Except.ok message :: rest => process_message b message ++ receiver_loop b rest

/-! Concrete test doubles, used to evaluate the theorems below on closed
inputs. -/

/-- A response from a healthy, authenticated session: status OK and a final
URL that is not the login redirect. -/
def respOK : Response :=
  { finalUrl := "http://sc.sit.edu.cn/", status := 200, body := "page", bytes := [3, 1, 4] }

/-- An environment whose transport always answers `respOK` and whose
collaborators always succeed. -/
def envActive : Env where
  send := fun c _ => Except.ok (respOK, c)
  loginWithSession := fun c => Except.ok c
  chooseRandomly := Except.ok (some 0)
  queryOr := fun _ _ => Except.ok 0
  insertSession := fun _ => Except.ok ()
  readText := fun r => Except.ok r.body
  readBytes := fun r => Except.ok r.bytes

/-- The `envActive` with an empty session pool: the random draw yields none. -/
def envEmptyPool : Env :=
  { envActive with chooseRandomly := Except.ok none }

/-- The `envActive` with a dead transport: every send fails. -/
def envDown : Env :=
  { envActive with send := fun _ _ => Except.error (AgentError.network "down") }

/-- Parsing collaborators that always succeed with empty records. -/
def trivialParsers : Parsers where
  activityList := fun _ => Except.ok []
  activityDetail := fun _ => Except.ok { images := [], rest := 0 }
  myScoreList := fun _ => Except.ok []
  myActivityList := fun _ => Except.ok []

/-- An image whose content is already present. -/
def imgFilled : ScImages := { old_name := "/a.png", content := [7] }

/-- An image whose content is still empty. -/
def imgEmpty : ScImages := { old_name := "/b.png", content := [] }

/-- A bridge whose callback always fails (the crate `Request`, `Response`
and shared data collapsed to `Unit`). -/
def errBridge : Bridge Unit Unit Unit where
  deserialize := fun _ => Except.ok ()
  serialize := fun _ => Except.ok [0]
  callback := fun _ _ => Except.error AgentError.loginFailed
  parameter := ()

/-- A bridge whose decoder rejects every payload. -/
def badFrameBridge : Bridge Unit Unit Unit where
  deserialize := fun _ => Except.error "malformed"
  serialize := fun _ => Except.ok [0]
  callback := fun _ _ => Except.ok ()
  parameter := ()

/-! Helper lemmas shared between the claim theorems. -/

/-- A lookup at or beyond the mapping length takes the `BadParameter`
branch of `tran_category`. -/
theorem tran_category_oob {category : Int}
    (h : CATEGORY_MAPPING.length ≤ usizeOfI32 category) :
    tran_category category = Except.error AgentError.badParameter := by
  unfold tran_category
  rw [List.getElem?_eq_none h]

/-- Every event of one `make_sure_active` run is a login or a fetch of the
landing URL. -/
theorem make_sure_active_events (env : Env) (c : Client) :
    ∀ e ∈ (make_sure_active env c).2.2,
      e = Event.login ∨ e = Event.fetch url.SSO_SC_REDIRECT := by
  unfold make_sure_active
  cases env.send c url.SSO_SC_REDIRECT with
  | error e => simp
  | ok pr =>
    obtain ⟨resp, c1⟩ := pr
    dsimp only
    split
    · cases env.loginWithSession c1 with
      | error e2 => simp
      | ok c2 =>
        cases hs : env.send c2 url.SSO_SC_REDIRECT with
        | error e3 => simp [hs]
        | ok pr2 => simp [hs]
    · simp

/-- C3: Category translation: index 0 maps to the empty string, any index at or
beyond the end of `CATEGORY_MAPPING` yields `BadParameter`, and index 5
yields its exact literal mapping value. -/
theorem tran_category_spec :
    tran_category 0 = Except.ok ""
    ∧ (∀ category : Int, CATEGORY_MAPPING.length ≤ usizeOfI32 category →
        tran_category category = Except.error AgentError.badParameter)
    ∧ tran_category 5 = Except.ok "8ab17f543fe62d5d013fe62e6dc70001" :=
  ⟨rfl, fun _ h => tran_category_oob h, rfl⟩

/-- Witness for the out-of-bounds branch of `tran_category_spec` at
index 12, just past the 12-entry mapping. -/
theorem tran_category_spec_witness :
    CATEGORY_MAPPING.length ≤ usizeOfI32 12
    ∧ tran_category 12 = Except.error AgentError.badParameter :=
  ⟨by decide, tran_category_spec.2.1 12 (by decide)⟩

/-- C10: Every negative i32 category value is cast modulo 2^64 to an index far
beyond the mapping, so `tran_category` returns `BadParameter` instead of
panicking. -/
theorem tran_category_negative (category : Int)
    (hlo : -(2 ^ 31) ≤ category) (hneg : category < 0) :
    tran_category category = Except.error AgentError.badParameter := by
  apply tran_category_oob
  have hlen : CATEGORY_MAPPING.length = 12 := rfl
  have hmod : category % (2 ^ 64 : Int) = category + 2 ^ 64 := by omega
  rw [hlen]
  unfold usizeOfI32
  rw [hmod]
  omega

/-- Witness for `tran_category_negative` at category -1. -/
theorem tran_category_negative_witness :
    -(2 ^ 31) ≤ (-1 : Int) ∧ (-1 : Int) < 0
    ∧ tran_category (-1) = Except.error AgentError.badParameter :=
  ⟨by decide, by decide, tran_category_negative (-1) (by decide) (by decide)⟩

/-- C4: The eager guard fetches the landing URL once; when the final URL is
not the login redirect it stops there and succeeds with no further request;
a login happens exactly when the final URL equals the login redirect, and on
successful login the landing fetch is retried exactly once. -/
theorem make_sure_active_spec (env : Env) (c : Client) (resp : Response)
    (c1 : Client) (h : env.send c url.SSO_SC_REDIRECT = Except.ok (resp, c1)) :
    (resp.finalUrl ≠ url.SSO_SC_REDIRECT →
        make_sure_active env c = (Except.ok (), c1, [Event.fetch url.SSO_SC_REDIRECT]))
    ∧ (Event.login ∈ (make_sure_active env c).2.2 ↔ resp.finalUrl = url.SSO_SC_REDIRECT)
    ∧ (∀ c2 : Client, resp.finalUrl = url.SSO_SC_REDIRECT →
        env.loginWithSession c1 = Except.ok c2 →
        (make_sure_active env c).2.2 =
          [Event.fetch url.SSO_SC_REDIRECT, Event.login, Event.fetch url.SSO_SC_REDIRECT]) := by
  unfold make_sure_active
  rw [h]
  by_cases hf : resp.finalUrl = url.SSO_SC_REDIRECT
  · refine ⟨fun hne => absurd hf hne, ?_, ?_⟩
    · simp only [hf, if_pos rfl]
      cases env.loginWithSession c1 with
      | error e2 => simp
      | ok c2 =>
        cases hs : env.send c2 url.SSO_SC_REDIRECT with
        | error e3 => simp [hs]
        | ok pr2 => simp [hs]
    · intro c2 _ hl
      simp only [hf, if_pos rfl, hl]
      cases hs : env.send c2 url.SSO_SC_REDIRECT with
      | error e3 => simp [hs]
      | ok pr2 => simp [hs]
  · simp [hf]

/-- Witness for `make_sure_active_spec` in an environment whose landing
fetch ends away from the login redirect: one fetch, no login. -/
theorem make_sure_active_spec_witness :
    envActive.send { session := 0, hook := true } url.SSO_SC_REDIRECT
      = Except.ok (respOK, { session := 0, hook := true })
    ∧ make_sure_active envActive { session := 0, hook := true }
      = (Except.ok (), { session := 0, hook := true }, [Event.fetch url.SSO_SC_REDIRECT]) :=
  ⟨rfl,
    (make_sure_active_spec envActive { session := 0, hook := true } respOK
      { session := 0, hook := true } rfl).1 (by decide)⟩

/-- C2: The lazy guard fetches the target URL once; on status OK it returns
that response with zero additional round trips; on a non-OK status its trace
is the target fetch followed by exactly one run of the eager guard, and when
that guard succeeds it returns `none` so the caller retries. -/
theorem fetch_or_make_sure_active_spec (env : Env) (c : Client) (u : String)
    (resp : Response) (c1 : Client) (h : env.send c u = Except.ok (resp, c1)) :
    (resp.status = statusOK →
        fetch_or_make_sure_active env c u
          = (Except.ok (some resp), c1, [Event.fetch u]))
    ∧ (resp.status ≠ statusOK →
        (fetch_or_make_sure_active env c u).2.2
            = Event.fetch u :: (make_sure_active env c1).2.2
        ∧ ((make_sure_active env c1).1 = Except.ok () →
            (fetch_or_make_sure_active env c u).1 = Except.ok none)) := by
  unfold fetch_or_make_sure_active
  rw [h]
  by_cases hst : resp.status = statusOK
  · simp [hst]
  · refine ⟨fun hok => absurd hok hst, fun _ => ?_⟩
    rcases hms : make_sure_active env c1 with ⟨r, c2, tr⟩
    cases r with
    | error e => simp [hst, hms]
    | ok u2 => simp [hst, hms]

/-- Witness for `fetch_or_make_sure_active_spec` on an OK response: the
response is handed back after a single fetch of the target URL. -/
theorem fetch_or_make_sure_active_spec_witness :
    envActive.send { session := 0, hook := false } "http://sc.sit.edu.cn/x"
      = Except.ok (respOK, { session := 0, hook := false })
    ∧ respOK.status = statusOK
    ∧ fetch_or_make_sure_active envActive { session := 0, hook := false }
        "http://sc.sit.edu.cn/x"
      = (Except.ok (some respOK), { session := 0, hook := false },
          [Event.fetch "http://sc.sit.edu.cn/x"]) :=
  ⟨rfl, rfl,
    (fetch_or_make_sure_active_spec envActive { session := 0, hook := false }
      "http://sc.sit.edu.cn/x" respOK { session := 0, hook := false } rfl).1 rfl⟩

/-- C5: `ScJoinRequest::process` is observationally the same operation as
`ScActivityRequest::process` on the same account and password: it returns
the identical result with the identical network trace, so `activity_id` and
`force` have no effect, and every event it performs is a login or a fetch of
the landing or personal-activity URL — no distinct join action is ever
sent. -/
theorem sc_join_equals_sc_activity (env : Env) (p : Parsers)
    (account password : String) (activity_id : Int) (force : Bool) :
    ScJoinRequest.process env p
        { account := account, password := password,
          activity_id := activity_id, force := force }
      = ScActivityRequest.process env p { account := account, password := password }
    ∧ ∀ e ∈ (ScJoinRequest.process env p
        { account := account, password := password,
          activity_id := activity_id, force := force }).2,
        e = Event.login ∨ e = Event.fetch url.SSO_SC_REDIRECT
          ∨ e = Event.fetch url.MY_ACTIVITY := by
  constructor
  · rfl
  · unfold ScJoinRequest.process
    dsimp only
    cases hq : env.queryOr account password with
    | error e0 => simp
    | ok session =>
      dsimp only
      rcases hms : make_sure_active env { session := session, hook := true } with ⟨r, c1, tr⟩
      have hev : ∀ e ∈ tr,
          e = Event.login ∨ e = Event.fetch url.SSO_SC_REDIRECT := by
        have h0 := make_sure_active_events env { session := session, hook := true }
        rwa [hms] at h0
      have hev3 : ∀ e ∈ tr,
          e = Event.login ∨ e = Event.fetch url.SSO_SC_REDIRECT
            ∨ e = Event.fetch url.MY_ACTIVITY :=
        fun e he => (hev e he).imp id Or.inl
      have hev4 : ∀ e ∈ tr ++ [Event.fetch url.MY_ACTIVITY],
          e = Event.login ∨ e = Event.fetch url.SSO_SC_REDIRECT
            ∨ e = Event.fetch url.MY_ACTIVITY := by
        intro e he
        rcases List.mem_append.mp he with h1 | h1
        · exact hev3 e h1
        · simp only [List.mem_singleton] at h1
          simp [h1]
      cases r with
      | error e0 => simpa using hev3
      | ok u1 =>
        dsimp only
        cases env.send c1 url.MY_ACTIVITY with
        | error e0 => simpa using hev4
        | ok pr =>
          obtain ⟨resp, c2⟩ := pr
          dsimp only
          cases env.readText resp with
          | error e0 => simpa using hev4
          | ok html =>
            dsimp only
            cases env.insertSession c2.session with
            | error e0 => simpa using hev4
            | ok u2 =>
              dsimp only
              cases p.myActivityList html with
              | error e0 => simpa using hev4
              | ok act => simpa using hev4

/-- Witness for `sc_join_equals_sc_activity` on concrete credentials: the
join request and the activity request coincide, and the personal-activity
fetch is among its allowed events. -/
theorem sc_join_equals_sc_activity_witness :
    ScJoinRequest.process envActive trivialParsers
        { account := "u", password := "p", activity_id := 5, force := true }
      = ScActivityRequest.process envActive trivialParsers
        { account := "u", password := "p" }
    ∧ (Event.fetch url.MY_ACTIVITY = Event.login
        ∨ Event.fetch url.MY_ACTIVITY = Event.fetch url.SSO_SC_REDIRECT
        ∨ Event.fetch url.MY_ACTIVITY = Event.fetch url.MY_ACTIVITY) :=
  ⟨(sc_join_equals_sc_activity envActive trivialParsers "u" "p" 5 true).1,
    (sc_join_equals_sc_activity envActive trivialParsers "u" "p" 5 true).2
      (Event.fetch url.MY_ACTIVITY) (by decide)⟩

/-- C7: With an empty session pool the random draw yields none, so both
account-agnostic requests fail with `NoSessionAvailable` and an empty
network trace: no fetch is performed and no default session is invented. -/
theorem empty_pool_no_session (env : Env) (p : Parsers)
    (lreq : ActivityListRequest) (dreq : ActivityDetailRequest)
    (h : env.chooseRandomly = Except.ok none) :
    ActivityListRequest.process env p lreq
        = (Except.error AgentError.noSessionAvailable, [])
    ∧ ActivityDetailRequest.process env p dreq
        = (Except.error AgentError.noSessionAvailable, []) := by
  unfold ActivityListRequest.process ActivityDetailRequest.process
  rw [h]
  exact ⟨rfl, rfl⟩

/-- Witness for `empty_pool_no_session` on `envEmptyPool`. -/
theorem empty_pool_no_session_witness :
    envEmptyPool.chooseRandomly = Except.ok none
    ∧ ActivityListRequest.process envEmptyPool trivialParsers
        { count := 10, index := 1, category := 1 }
      = (Except.error AgentError.noSessionAvailable, [])
    ∧ ActivityDetailRequest.process envEmptyPool trivialParsers { id := 3 }
      = (Except.error AgentError.noSessionAvailable, []) :=
  ⟨rfl,
    (empty_pool_no_session envEmptyPool trivialParsers
      { count := 10, index := 1, category := 1 } { id := 3 } rfl).1,
    (empty_pool_no_session envEmptyPool trivialParsers
      { count := 10, index := 1, category := 1 } { id := 3 } rfl).2⟩

/-- One `download_image` run performs exactly one fetch, of the given URL. -/
theorem download_image_trace (env : Env) (u : String) (c : Client) :
    (download_image env u c).2.2 = [Event.fetch u] := by
  unfold download_image
  dsimp only
  cases env.send { c with hook := true } u with
  | error e => rfl
  | ok pr =>
    obtain ⟨resp, c1⟩ := pr
    dsimp only
    cases env.readBytes resp with
    | error e => rfl
    | ok bs => rfl

/-- The `fetch_image` leaves every image whose content is already present
untouched, at its original position. -/
theorem fetch_image_preserved (env : Env) (images : List ScImages) (c : Client) :
    ∀ (i : Nat) (img : ScImages), images[i]? = some img →
      img.content.isEmpty = false → (fetch_image env images c).2.1[i]? = some img := by
  induction images generalizing c with
  | nil => intro i img hget; simp at hget
  | cons image rest ih =>
    intro i img hget hne
    cases i with
    | zero =>
      simp only [List.getElem?_cons_zero, Option.some.injEq] at hget
      subst hget
      unfold fetch_image
      simp [hne]
    | succ n =>
      simp only [List.getElem?_cons_succ] at hget
      unfold fetch_image
      by_cases hc : image.content.isEmpty
      · simp only [hc, if_pos]
        rcases hd : download_image env (match_image_url image.old_name) c with ⟨r, c1, tr⟩
        cases r with
        | error e => simpa using ih c1 n img hget hne
        | ok result => simpa using ih c1 n img hget hne
      · simpa [hc] using ih c n img hget hne

/-- The trace of `fetch_image` is exactly one fetch of the matched URL per
image whose content is empty, in list order. -/
theorem fetch_image_trace (env : Env) (images : List ScImages) (c : Client) :
    (fetch_image env images c).2.2.2 =
      (images.filter fun im => im.content.isEmpty).map
        fun im => Event.fetch (match_image_url im.old_name) := by
  induction images generalizing c with
  | nil => rfl
  | cons image rest ih =>
    unfold fetch_image
    by_cases hc : image.content.isEmpty
    · simp only [hc, if_pos]
      rcases hd : download_image env (match_image_url image.old_name) c with ⟨r, c1, tr⟩
      have htr : tr = [Event.fetch (match_image_url image.old_name)] := by
        have h0 := download_image_trace env (match_image_url image.old_name) c
        rw [hd] at h0
        exact h0
      cases r with
      | error e => simp [htr, ih c1, hc]
      | ok result => simp [htr, ih c1, hc]
    · simp [hc, ih c]

/-- The `fetch_image` always succeeds, whatever the downloads do. -/
theorem fetch_image_result (env : Env) (images : List ScImages) (c : Client) :
    (fetch_image env images c).1 = Except.ok () := by
  induction images generalizing c with
  | nil => rfl
  | cons image rest ih =>
    unfold fetch_image
    by_cases hc : image.content.isEmpty
    · simp only [hc, if_pos]
      rcases hd : download_image env (match_image_url image.old_name) c with ⟨r, c1, tr⟩
      cases r with
      | error e => simpa using ih c1
      | ok result => simpa using ih c1
    · simpa [hc] using ih c

/-- When every send fails, every download fails, and `fetch_image` leaves
the whole image list unchanged. -/
theorem fetch_image_all_sends_fail (env : Env) (e : AgentError)
    (h : ∀ cl u, env.send cl u = Except.error e) (images : List ScImages)
    (c : Client) : (fetch_image env images c).2.1 = images := by
  induction images generalizing c with
  | nil => rfl
  | cons image rest ih =>
    unfold fetch_image
    by_cases hc : image.content.isEmpty
    · have hd : download_image env (match_image_url image.old_name) c
          = (Except.error e, { c with hook := true },
              [Event.fetch (match_image_url image.old_name)]) := by
        unfold download_image
        dsimp only
        rw [h]
      simp [hc, hd, ih]
    · simp [hc, ih c]

/-- C8: The image pipeline downloads content only for images whose content
field is empty: its trace is exactly one fetch of the matched URL per empty
image, and every image whose content is already present comes through
unchanged. -/
theorem fetch_image_only_empty (env : Env) (images : List ScImages) (c : Client) :
    (∀ (i : Nat) (img : ScImages), images[i]? = some img →
        img.content.isEmpty = false → (fetch_image env images c).2.1[i]? = some img)
    ∧ (fetch_image env images c).2.2.2 =
        (images.filter fun im => im.content.isEmpty).map
          fun im => Event.fetch (match_image_url im.old_name) :=
  ⟨fetch_image_preserved env images c, fetch_image_trace env images c⟩

/-- Witness for `fetch_image_only_empty` on two images of which the first
already has content: the filled one is untouched and only the empty one is
fetched. -/
theorem fetch_image_only_empty_witness :
    (fetch_image envActive [imgFilled, imgEmpty] { session := 0, hook := false }).2.1[0]?
        = some imgFilled
    ∧ (fetch_image envActive [imgFilled, imgEmpty] { session := 0, hook := false }).2.2.2
        = [Event.fetch "http://sc.sit.edu.cn/b.png"] := by
  constructor
  · exact (fetch_image_only_empty envActive [imgFilled, imgEmpty]
      { session := 0, hook := false }).1 0 imgFilled rfl rfl
  · rw [(fetch_image_only_empty envActive [imgFilled, imgEmpty]
      { session := 0, hook := false }).2]
    rfl

/-- C9: A failed image download never fails the enclosing request:
`fetch_image` returns `Ok(())` for every environment, and when every send
fails each image is left exactly as it was, its content still empty. -/
theorem fetch_image_never_fails (env : Env) (images : List ScImages) (c : Client) :
    (fetch_image env images c).1 = Except.ok ()
    ∧ ∀ e : AgentError, (∀ cl u, env.send cl u = Except.error e) →
        (fetch_image env images c).2.1 = images :=
  ⟨fetch_image_result env images c,
    fun e h => fetch_image_all_sends_fail env e h images c⟩

/-- Witness for `fetch_image_never_fails` on the dead transport `envDown`:
both downloads fail, the request still succeeds and both images keep their
content. -/
theorem fetch_image_never_fails_witness :
    (fetch_image envDown [imgFilled, imgEmpty] { session := 0, hook := false }).1
        = Except.ok ()
    ∧ (fetch_image envDown [imgFilled, imgEmpty] { session := 0, hook := false }).2.1
        = [imgFilled, imgEmpty] :=
  ⟨(fetch_image_never_fails envDown [imgFilled, imgEmpty]
      { session := 0, hook := false }).1,
    (fetch_image_never_fails envDown [imgFilled, imgEmpty]
      { session := 0, hook := false }).2 (AgentError.network "down")
      fun _ _ => rfl⟩

/-- C6: A binary frame whose payload fails to decode is dropped silently:
its dispatch enqueues no outbound frame, and the receive loop handles the
remaining inbound messages exactly as if the malformed frame had never
arrived. -/
theorem malformed_frame_dropped {Req Resp D : Type} (b : Bridge Req Resp D)
    (content : List Nat) (err : String) (rest : List (Except String Msg))
    (h : b.deserialize content = Except.error err) :
    dispatch_message b content = []
    ∧ receiver_loop b (Except.ok (Msg.binary content) :: rest) = receiver_loop b rest := by
  have h1 : dispatch_message b content = [] := by
    unfold dispatch_message
    rw [h]
  exact ⟨h1, by simp [receiver_loop, process_message, h1]⟩

/-- Witness for `malformed_frame_dropped` on a bridge that rejects every
payload, with one well-formed control frame behind the malformed one. -/
theorem malformed_frame_dropped_witness :
    badFrameBridge.deserialize [255] = Except.error "malformed"
    ∧ dispatch_message badFrameBridge [255] = []
    ∧ receiver_loop badFrameBridge
        (Except.ok (Msg.binary [255]) :: [Except.ok (Msg.ping [])])
      = receiver_loop badFrameBridge [Except.ok (Msg.ping [])] :=
  ⟨rfl,
    (malformed_frame_dropped badFrameBridge [255] "malformed"
      [Except.ok (Msg.ping [])] rfl).1,
    (malformed_frame_dropped badFrameBridge [255] "malformed"
      [Except.ok (Msg.ping [])] rfl).2⟩

/-- C1 fails on the code: when the callback returns an error,
`dispatch_message` enqueues no outbound frame at all — the frame count is
zero, not one, so a decoded request does not always yield a response frame.
Evaluated here on a payload that decodes successfully into a request whose
callback fails. -/
theorem dispatch_drops_callback_error :
    dispatch_message errBridge [1] = [] := rfl

end KiteAgent
